import Mathlib

/-!
Verification development for the FlashForgeDash printer client
(`backend/printer_client.py`) and the G-code time helpers
(`backend/gcode_parser.py`).

The Python code is shallowly embedded: temperatures are exact rationals
(Python floats modelled as ℚ), Python `int` is ℤ, fallible parsing is
`Option`, network I/O is an explicit response oracle (`Option String`,
`none` = socket-level error), and the `try/except` blocks around the
telemetry parsers are modelled by step functions that return the state
built so far together with a flag recording whether an exception was
raised.  The client's single non-reentrant lock is modelled where it
is observable: an operation that re-acquires the already-held lock is
recorded as deadlocking, with the shared state frozen at the blocking
point.
-/

namespace FlashForge

/-! ## Python string and number primitives -/

/-- Python `str.lower()` restricted to the ASCII range (`Char.toLower`
matches Python on ASCII, which is all the protocol uses).  All string
primitives here work on the underlying character list with structural
recursion, so that concrete runs reduce inside the kernel. -/
def pyLower (s : String) : String := String.mk (s.data.map Char.toLower)

/-- Occurrence test of `sep` as a contiguous sublist: true when some
suffix starts with `sep`. -/
def listContains (sep : List Char) : List Char → Bool
  | [] => sep.isEmpty
  | c :: cs => sep.isPrefixOf (c :: cs) || listContains sep cs

/-- Python substring test `sub in s`. -/
def pyIn (sub s : String) : Bool := listContains sub.data s.data

/-- Auxiliary for `pySplitOn`: left-to-right scan cutting at each
non-overlapping occurrence of `sep`; `acc` holds the piece being built
(reversed).  `fuel` only bounds the recursion — any value above the
length of the list is enough, and `pySplitOn` passes `length + 1`. -/
def splitOnAux (sep : List Char) : ℕ → List Char → List Char → List (List Char)
  | 0, l, acc => [acc.reverse ++ l]
  | _ + 1, [], acc => [acc.reverse]
  | fuel + 1, c :: cs, acc =>
    if sep.isPrefixOf (c :: cs) then
      acc.reverse :: splitOnAux sep fuel ((c :: cs).drop sep.length) []
    else splitOnAux sep fuel cs (c :: acc)

/-- Python `str.split(sep)` for a nonempty separator `sep`. -/
def pySplitOn (sep s : String) : List String :=
  (splitOnAux sep.data (s.data.length + 1) s.data []).map String.mk

/-- Python `str.split()` with no argument: split on whitespace and drop
empty pieces. -/
def pySplit (s : String) : List String :=
  ((s.data.splitOnP Char.isWhitespace).filter (fun p => p ≠ [])).map String.mk

/-- Whitespace stripped from both ends of a character list. -/
def trimList (l : List Char) : List Char :=
  ((l.dropWhile Char.isWhitespace).reverse.dropWhile Char.isWhitespace).reverse

/-- Python `str.strip()` with no argument. -/
def pyStrip (s : String) : String := String.mk (trimList s.data)

/-- Python `str.isdigit()` on ASCII text: nonempty and all digits. -/
def pyIsDigit (s : String) : Bool := !s.data.isEmpty && s.data.all Char.isDigit

/-- Maximal leading run of decimal digits of a character list, together
with the remainder. -/
def takeDigits : List Char → List Char × List Char
  | [] => ([], [])
  | c :: cs =>
    if c.isDigit then
      let (ds, rest) := takeDigits cs
      (c :: ds, rest)
    else ([], c :: cs)

/-- Numeric value of a list of decimal digits (most significant first). -/
def digitsToNat (ds : List Char) : ℕ :=
  ds.foldl (fun acc c => 10 * acc + (c.toNat - 48)) 0

/-- Leading optional sign of a character list. -/
def takeSign : List Char → ℤ × List Char
  | '+' :: r => (1, r)
  | '-' :: r => (-1, r)
  | r => (1, r)

/-- Python `int(str)`: optional surrounding whitespace, optional sign,
one or more digits, nothing else; `none` models the `ValueError`.
(Underscore separators, accepted by Python, are not modelled; the
protocol never produces them.) -/
def pyInt (s : String) : Option ℤ :=
  let cs := trimList s.data
  let (sgn, cs) := takeSign cs
  let (ds, rest) := takeDigits cs
  if ds = [] ∨ rest ≠ [] then none else some (sgn * (digitsToNat ds : ℤ))

/-- Optional exponent suffix of a Python float literal: empty, or
`e`/`E` followed by an optional sign and one or more digits. -/
def takeExp : List Char → Option ℤ
  | [] => some 0
  | e :: r =>
    if e = 'e' ∨ e = 'E' then
      let (esgn, r) := takeSign r
      let (eds, rest) := takeDigits r
      if eds = [] ∨ rest ≠ [] then none else some (esgn * (digitsToNat eds : ℤ))
    else none

/-- Python `float(str)` on decimal literals, with the value taken
exactly in ℚ: optional surrounding whitespace, optional sign, digits
with at most one decimal point (at least one digit overall), optional
exponent; `none` models the `ValueError`.  (`inf`/`nan` and underscore
separators are not modelled; the protocol never produces them, and
claims never need them.) -/
def pyFloat (s : String) : Option ℚ :=
  let cs := trimList s.data
  let (sgn, cs) := takeSign cs
  let (ip, cs) := takeDigits cs
  let (fp, cs) :=
    match cs with
    | '.' :: r => takeDigits r
    | r => ([], r)
  if ip = [] ∧ fp = [] then none
  else
    match takeExp cs with
    | none => none
    | some e =>
      let mant : ℤ := sgn * (digitsToNat (ip ++ fp) : ℤ)
      let ex : ℤ := e - fp.length
      if 0 ≤ ex then some ((mant : ℚ) * (10 : ℚ) ^ ex.toNat)
      else some ((mant : ℚ) / (10 : ℚ) ^ (-ex).toNat)

/-- Python `int(float)` conversion: truncation toward zero.  On a
rational `q` in lowest terms this is the truncating division of the
numerator by the denominator. -/
def pyTrunc (q : ℚ) : ℤ := q.num.tdiv q.den

/-! ## Data model (`PrinterStatus`, `PrinterState`) -/

/-- The `PrinterStatus` enum of `printer_client.py`. -/
inductive PrinterStatus
  | idle
  | preheating
  | heating
  | cooling
  | ready
  | printing
  | paused
  | complete
  | error
  | disconnected
deriving DecidableEq, Repr

/-- The `PrinterState` dataclass.  `last_update` (a wall-clock
timestamp) is not modelled; temperatures are exact rationals and
`progress` is a Python int (ℤ — the code never clamps it). -/
structure PrinterState where
  connected : Bool := false
  status : PrinterStatus := .disconnected
  nozzle_temp : ℚ := 0
  nozzle_target : ℚ := 0
  bed_temp : ℚ := 0
  bed_target : ℚ := 0
  progress : ℤ := 0
  led_on : Bool := true
  error_message : String := ""
deriving DecidableEq, Repr

/-- The dataclass defaults: the state a fresh `PrinterClient` holds. -/
def initState : PrinterState := {}

/-! ## Telemetry parser (`_parse_temperatures`) -/

/-- Step of `_parse_temperatures` for the `T0:` pair.  Mirrors

```
if "T0:" in response:
    t0_part = response.split("T0:")[1].split()[0]
    if "/" in t0_part:
        current, target = t0_part.split("/")
        self.state.nozzle_temp = float(current)
        self.state.nozzle_target = float(target)
```

The second component records whether an exception escaped the step
(`IndexError` from `[0]` on an empty token list, `ValueError` from
unpacking a split of length ≠ 2, or `ValueError` from `float`); the
first component is the state as mutated up to the raise point. -/
def parseT0 (response : String) (st : PrinterState) : PrinterState × Bool :=
  if pyIn "T0:" response then
    match (pySplit ((pySplitOn "T0:" response).getD 1 "")).head? with
    | none => (st, true)
    | some t0_part =>
      if pyIn "/" t0_part then
        match pySplitOn "/" t0_part with
        | [current, target] =>
          match pyFloat current with
          | none => (st, true)
          | some c =>
            let st1 := { st with nozzle_temp := c }
            match pyFloat target with
            | none => (st1, true)
            | some t => ({ st1 with nozzle_target := t }, false)
        | _ => (st, true)
      else (st, false)
  else (st, false)

/-- Step of `_parse_temperatures` for the `B:` pair; same shape as
`parseT0` with the bed fields. -/
def parseB (response : String) (st : PrinterState) : PrinterState × Bool :=
  if pyIn "B:" response then
    match (pySplit ((pySplitOn "B:" response).getD 1 "")).head? with
    | none => (st, true)
    | some b_part =>
      if pyIn "/" b_part then
        match pySplitOn "/" b_part with
        | [current, target] =>
          match pyFloat current with
          | none => (st, true)
          | some c =>
            let st1 := { st with bed_temp := c }
            match pyFloat target with
            | none => (st1, true)
            | some t => ({ st1 with bed_target := t }, false)
        | _ => (st, true)
      else (st, false)
  else (st, false)

/-- Model of `PrinterClient._parse_temperatures`: the `T0:` step, then — only if
no exception was raised — the `B:` step; the surrounding
`try/except (ValueError, IndexError)` catches the exception and keeps
every assignment already made. -/
def parse_temperatures (response : String) (st : PrinterState) : PrinterState :=
  if (parseT0 response st).2 then (parseT0 response st).1
  else (parseB response (parseT0 response st).1).1

/-! ## Status inference (`_determine_thermal_status`, `_parse_status`) -/

/-- Model of `PrinterClient._determine_thermal_status`: progress check first,
then the thermal rules in the source order (PREHEATING, HEATING, READY,
COOLING, IDLE) with `TEMP_TOLERANCE = 3` and `HEATING_THRESHOLD = 10`.
The source binds local names — `nozzle_diff = nozzle_target -
nozzle_temp`, `nozzle_target_set = nozzle_target > 30`,
`nozzle_heating`, `nozzle_preheating`, `nozzle_cooling`,
`nozzle_ready = nozzle_target_set and abs(nozzle_diff) <= 3` and the
bed analogues — which are inlined here.  The source phrases the READY
rule as two nested `if`s (tolerance test, then at least one target
set); the conjunction below is the same test, since a failed inner
check likewise falls through to the COOLING rule. -/
def determine_thermal_status (st : PrinterState) : PrinterStatus :=
  if 0 < st.progress ∧ st.progress < 100 then .printing
  else if (st.nozzle_target > 30 ∧ st.nozzle_target - st.nozzle_temp > 10)
      ∧ (st.bed_target > 30 ∧ st.bed_target - st.bed_temp > 10) then .preheating
  else if (st.nozzle_target > 30 ∧ st.nozzle_target - st.nozzle_temp > 3)
      ∨ (st.bed_target > 30 ∧ st.bed_target - st.bed_temp > 3) then .heating
  else if ((st.nozzle_target > 30 ∧ |st.nozzle_target - st.nozzle_temp| ≤ 3)
        ∨ ¬st.nozzle_target > 30)
      ∧ ((st.bed_target > 30 ∧ |st.bed_target - st.bed_temp| ≤ 3)
        ∨ ¬st.bed_target > 30)
      ∧ (st.nozzle_target > 30 ∨ st.bed_target > 30) then .ready
  else if (st.nozzle_temp > st.nozzle_target + 3 ∧ st.nozzle_temp > 40)
      ∨ (st.bed_temp > st.bed_target + 3 ∧ st.bed_temp > 40) then .cooling
  else .idle

/-- Model of `PrinterClient._parse_status`: explicit keyword checks on the
lowercased response first, then — only while connected — the thermal
inference. -/
def parse_status (response : String) (st : PrinterState) : PrinterState :=
  let rl := pyLower response
  if pyIn "printing" rl then { st with status := .printing }
  else if pyIn "paused" rl then { st with status := .paused }
  else if pyIn "complete" rl || pyIn "finished" rl then { st with status := .complete }
  else if pyIn "error" rl then { st with status := .error }
  else if st.connected then { st with status := determine_thermal_status st }
  else st

/-! ## Progress parser (`_parse_progress`) -/

/-- Extraction chain of the `byte <current>/<total>` pattern inside
`_parse_progress`:

```
parts = response.split("byte")[1].strip().split("/")
if len(parts) == 2:
    current = int(parts[0].strip())
    total = int(parts[1].split()[0].strip())
```

`none` models any `ValueError`/`IndexError` on the way (all caught by
the surrounding `try/except`, which performs no assignment in that
case, since `self.state.progress` is only assigned after both parses
succeed). -/
def byteFraction (response : String) : Option (ℤ × ℤ) :=
  let parts := pySplitOn "/" (pyStrip ((pySplitOn "byte" response).getD 1 ""))
  if parts.length = 2 then
    match pyInt (pyStrip (parts.getD 0 "")) with
    | none => none
    | some current =>
      match (pySplit (parts.getD 1 "")).head? with
      | none => none
      | some tok =>
        match pyInt (pyStrip tok) with
        | none => none
        | some total => some (current, total)
  else none

/-- Model of `PrinterClient._parse_progress`.  Note the guard order of the
source: a response containing the substring `SD printing` (which
includes the device's `Not SD printing` reply) enters the first branch,
and only touches progress when it also contains `byte`; the
`not ... printing` reset branch is reached only by responses that avoid
the literal substring `SD printing`. -/
def parse_progress (response : String) (st : PrinterState) : PrinterState :=
  if pyIn "SD printing byte" response || pyIn "SD printing" response then
    if pyIn "byte" response then
      match byteFraction response with
      | none => st
      | some (current, total) =>
        if total > 0 then
          { st with progress := pyTrunc ((current : ℚ) / (total : ℚ) * 100) }
        else st
    else st
  else if pyIn "not" (pyLower response) && pyIn "printing" (pyLower response) then
    if st.status ≠ .printing ∧ st.status ≠ .paused then { st with progress := 0 }
    else st
  else st

/-! ## Client and connection lifecycle

Network I/O is modelled by response oracles: an `Option String`
argument per device exchange, where `none` stands for a socket-level
error (`_send_command` returning `None`) and `some s` for the decoded
response text `s` (possibly empty — an empty accumulated response is
falsy in Python and the callers treat it like an error).  `sock`
records whether `self.socket` is not `None`.

The client guards its shared state with a single non-reentrant
`threading.Lock`.  That lock is modelled at its one observable point:
`_close_socket` re-acquires it (`with self._lock:`, line 127), so a
call made while the calling thread already holds the lock — `connect`'s
failure path (lock taken at line 95) and `_handle_connection_error` as
invoked from `poll_status` (lock taken at line 255) — blocks that
thread forever.  `LockResult` records either the completed call or the
deadlock, together with the shared state as frozen at the blocking
point. -/

/-- The parts of a `PrinterClient` the claims are about: the socket
handle (present or not) and the shared `PrinterState`.  Thread and
callback-list fields are not modelled; each operation below is the
body of one critical section under the client's lock, whose
re-acquisition behaviour is captured by `LockResult`. -/
structure Client where
  sock : Bool := false
  state : PrinterState := initState
deriving DecidableEq, Repr

/-- A freshly constructed `PrinterClient`. -/
def initClient : Client := {}

/-- Outcome of an operation run by a thread that may have to take the
client's non-reentrant lock again: either the call completes with a
result, or the thread blocks forever on the lock it already holds and
the shared state stays frozen as it was at the blocking point. -/
inductive LockResult (α : Type)
  | done (a : α)
  | deadlock (frozen : Client)
deriving DecidableEq, Repr

/-- Model of `PrinterClient._send_command`: returns `None` when there is no
socket, otherwise whatever the network exchange yields (the oracle). -/
def send_command (c : Client) (r : Option String) : Option String :=
  if c.sock then r else none

/-- Python truthiness of `_send_command`'s result: a present, nonempty
string. -/
def optTruthy : Option String → Bool
  | some s => s ≠ ""
  | none => false

/-- Acknowledgment test used by every command path:
`response and "ok" in response.lower()` (the `response is not None`
variant of some commands is equivalent, since the empty string cannot
contain `ok`). -/
def ackOf : Option String → Bool
  | some s => pyIn "ok" (pyLower s)
  | none => false

/-- Handshake success condition of `connect`:
`response and "ok" in response.lower()` on the `_send_command` result. -/
def handshake_ok : Option String → Bool
  | some resp => decide (resp ≠ "") && pyIn "ok" (pyLower resp)
  | none => false

/-- State effect of `_close_socket`'s body — socket dropped,
`connected` cleared, status `DISCONNECTED` — once its lock acquisition
has succeeded. -/
def close_socket_body (c : Client) : Client :=
  { sock := false,
    state := { c.state with connected := false, status := .disconnected } }

/-- Model of `PrinterClient._close_socket`.  The method opens with
`with self._lock:` (line 127); `held` records whether the calling
thread already holds that non-reentrant lock.  If it does, the
acquisition blocks forever and the shared state stays frozen as it
was; otherwise the body runs. -/
def close_socket (held : Bool) (c : Client) : LockResult Client :=
  if held then .deadlock c else .done (close_socket_body c)

/-- Model of `PrinterClient.connect`: take the lock (line 95), create the
socket, send the `~M601 S1` handshake (`hs` is the oracle for it;
`none` also covers a `socket.connect` exception, which takes the same
failure path).  On a response containing `ok` (case-insensitive):
`connected = true`, `status = IDLE`, return `True`.  Every other
outcome calls `_close_socket` while still holding the lock, which
deadlocks before the socket is closed — the source's `return False`
lines are unreachable. -/
def connect (c : Client) (hs : Option String) : LockResult (Client × Bool) :=
  if handshake_ok (send_command { c with sock := true } hs) then
    .done ({ sock := true,
             state := { c.state with connected := true, status := .idle } }, true)
  else
    match close_socket true { c with sock := true } with
    | .done c1 => .done (c1, false)
    | .deadlock fc => .deadlock fc

/-- Model of `PrinterClient.disconnect`: stop polling, bounded join, then
`_close_socket`.  `disconnect` itself does not take the lock, so the
close completes (only its state effect is modelled). -/
def disconnect (c : Client) : LockResult Client := close_socket false c

/-- Model of `PrinterClient._handle_connection_error`.  Its only call
sites are inside `poll_status`'s `with self._lock:` block (line 255),
so its first statement `_close_socket()` blocks forever re-acquiring
the non-reentrant lock: the socket is never closed, and the fixed
delay and single `connect()` call below are never reached.  The `done`
arm is unreachable — and even there `connect()` would itself block
taking the same held lock — so the thread deadlocks either way, with
the shared state frozen as at entry. -/
def handle_connection_error (c : Client) : LockResult Client :=
  match close_socket true c with
  | .deadlock fc => .deadlock fc
  | .done c1 => .deadlock c1

/-- The network responses one `poll_status` call can consume: the
`~M105`, `~M119` and `~M27` exchanges.  (No reconnect handshake
appears: the error path deadlocks before any `connect` could run.) -/
structure PollEnv where
  r105 : Option String
  r119 : Option String
  r27 : Option String

/-- Tail of `poll_status` after a parsed `~M119` response: the source
assigns the progress parse result and returns; a falsy `~M27` response
is silently skipped (no error handling). -/
def poll_progress_step (c2 : Client) (env : PollEnv) : LockResult (Client × ℕ) :=
  if optTruthy (send_command c2 env.r27) then
    .done ({ c2 with
      state := parse_progress ((send_command c2 env.r27).getD "") c2.state }, 0)
  else .done (c2, 0)

/-- Tail of `poll_status` after a truthy `~M105` response was parsed:
the `~M119` exchange; a falsy response invokes the error handler,
which deadlocks on the held lock. -/
def poll_status_step (c1 : Client) (env : PollEnv) : LockResult (Client × ℕ) :=
  if optTruthy (send_command c1 env.r119) then
    poll_progress_step
      { c1 with state := parse_status ((send_command c1 env.r119).getD "") c1.state } env
  else
    match handle_connection_error c1 with
    | .done cx => .done (cx, 1)
    | .deadlock fc => .deadlock fc

/-- Model of `PrinterClient.poll_status`, split at its early-return
points into the three sequential exchanges of the source
(`poll_status_step`, `poll_progress_step`).  The whole body runs under
the lock taken at line 255.  The numeric component of a completed call
counts the `connect` calls performed through `_handle_connection_error`
during the poll; since the error handler deadlocks inside
`_close_socket` before any reconnect, every completed poll reports 0. -/
def poll_status (c : Client) (env : PollEnv) : LockResult (Client × ℕ) :=
  if c.state.connected = false then .done (c, 0)
  else if optTruthy (send_command c env.r105) then
    poll_status_step
      { c with state := parse_temperatures ((send_command c env.r105).getD "") c.state } env
  else
    match handle_connection_error c with
    | .done cx => .done (cx, 1)
    | .deadlock fc => .deadlock fc

/-! ## Control and file commands -/

/-- Model of `PrinterClient.emergency_stop` (`~M112`): state untouched, returns
the acknowledgment. -/
def emergency_stop (c : Client) (r : Option String) : Client × Bool :=
  (c, ackOf (send_command c r))

/-- Model of `PrinterClient.toggle_led` (`~M146 ...`): on acknowledgment stores
the requested LED state and returns true.  (The source's parameter is
named `on`, a reserved word in Lean.) -/
def toggle_led (c : Client) (ledOn : Bool) (r : Option String) : Client × Bool :=
  if ackOf (send_command c r) then
    ({ c with state := { c.state with led_on := ledOn } }, true)
  else (c, false)

/-- Model of `PrinterClient.pause_print` (`~M25`). -/
def pause_print (c : Client) (r : Option String) : Client × Bool :=
  (c, ackOf (send_command c r))

/-- Model of `PrinterClient.resume_print` (`~M24`). -/
def resume_print (c : Client) (r : Option String) : Client × Bool :=
  (c, ackOf (send_command c r))

/-- Model of `PrinterClient.set_nozzle_temp` (`~M104 S<t>`): clamps the request
to `[0, 300]` before sending; on acknowledgment stores the clamped
value as the nozzle target and returns true. -/
def set_nozzle_temp (c : Client) (temperature : ℤ) (r : Option String) : Client × Bool :=
  let temp := max 0 (min 300 temperature)
  if ackOf (send_command c r) then
    ({ c with state := { c.state with nozzle_target := (temp : ℚ) } }, true)
  else (c, false)

/-- Model of `PrinterClient.set_bed_temp` (`~M140 S<t>`): clamps the request to
`[0, 120]`; otherwise as `set_nozzle_temp`. -/
def set_bed_temp (c : Client) (temperature : ℤ) (r : Option String) : Client × Bool :=
  let temp := max 0 (min 120 temperature)
  if ackOf (send_command c r) then
    ({ c with state := { c.state with bed_target := (temp : ℚ) } }, true)
  else (c, false)

/-- Model of `PrinterClient.fan_on` (`~M106`). -/
def fan_on (c : Client) (r : Option String) : Client × Bool :=
  (c, ackOf (send_command c r))

/-- Model of `PrinterClient.fan_off` (`~M107`). -/
def fan_off (c : Client) (r : Option String) : Client × Bool :=
  (c, ackOf (send_command c r))

/-- Model of `PrinterClient.disable_motors` (`~M18`). -/
def disable_motors (c : Client) (r : Option String) : Client × Bool :=
  (c, ackOf (send_command c r))

/-- Model of `PrinterClient.home_axes` (`~G28`). -/
def home_axes (c : Client) (r : Option String) : Client × Bool :=
  (c, ackOf (send_command c r))

/-- Model of `PrinterClient.list_files` (`~M20`): parses the listing into a
local list and never assigns to `self.state`; only its (identity) state
effect matters to the claims, so the returned file list is left
unmodelled. -/
def list_files (c : Client) (_r : Option String) : Client := c

/-- Model of `PrinterClient.start_print` (`~M23` then `~M24`): each step
acknowledgment-gated, no state assignment. -/
def start_print (c : Client) (rsel rstart : Option String) : Client × Bool :=
  if ackOf (send_command c rsel) then (c, ackOf (send_command c rstart))
  else (c, false)

/-- Model of `PrinterClient.delete_file` (`~M30`). -/
def delete_file (c : Client) (r : Option String) : Client × Bool :=
  (c, ackOf (send_command c r))

/-- Model of `PrinterClient.upload_file` (`~M28`, content lines whose responses
are ignored, `~M29`): no state assignment. -/
def upload_file (c : Client) (rbegin rend : Option String) : Client × Bool :=
  if ackOf (send_command c rbegin) then (c, ackOf (send_command c rend))
  else (c, false)

/-- Model of `PrinterClient.get_state`: `return self.state` — the value it
exposes (the aliasing of the returned object is analysed separately in
the heap model below). -/
def get_state (c : Client) : PrinterState := c.state

/-! ## G-code time helpers (`gcode_parser.py`) -/

/-- Leading whitespace dropped (the `\s*` part of the unit patterns). -/
def skipWs : List Char → List Char
  | [] => []
  | c :: cs => if c.isWhitespace then skipWs cs else c :: cs

/-- Model of `re.search(r"(\d+)\s*<u>", s)` returning the numeric value
of group 1: scan start positions left to right; at each, a match is a
maximal digit run, optional whitespace, then the unit character.
(Greedy `\d+` needs no backtracking here: after a maximal digit run the
next character is not a digit, and no shorter run can succeed where the
maximal one fails, since the character after a shorter run is a digit,
which is neither whitespace nor a unit letter.  The optional `(?:in)?`
and `(?:ec)?` suffixes of the minute/second patterns never affect group
1.) -/
def searchNumUnit (u : Char) : List Char → Option ℕ
  | [] => none
  | c :: cs =>
    match takeDigits (c :: cs) with
    | ([], _) => searchNumUnit u cs
    | (ds, rest) =>
      if (skipWs rest).head? = some u then some (digitsToNat ds)
      else searchNumUnit u cs

/-- Model of `re.match(r"(\d+):(\d+):(\d+)", s)`: anchored at the
start, trailing text allowed. -/
def matchHMS (cs : List Char) : Option (ℕ × ℕ × ℕ) :=
  match takeDigits cs with
  | ([], _) => none
  | (h, rest) =>
    match rest with
    | ':' :: r2 =>
      match takeDigits r2 with
      | ([], _) => none
      | (m, rest2) =>
        match rest2 with
        | ':' :: r3 =>
          match takeDigits r3 with
          | ([], _) => none
          | (s, _) => some (digitsToNat h, digitsToNat m, digitsToNat s)
        | _ => none
    | _ => none

/-- Model of `GCodeParser._parse_time_string`: strip and lowercase; pure digit
strings are seconds; otherwise sum the `d`/`h`/`m`/`s` unit matches;
if that total is zero, try `HH:MM:SS`. -/
def parse_time_string (time_str : String) : ℤ :=
  let s := pyLower (pyStrip time_str)
  if pyIsDigit s then (digitsToNat s.toList : ℤ)
  else
    let cs := s.toList
    let total : ℕ :=
      (searchNumUnit 'd' cs).getD 0 * 86400 + (searchNumUnit 'h' cs).getD 0 * 3600
        + (searchNumUnit 'm' cs).getD 0 * 60 + (searchNumUnit 's' cs).getD 0 * 1
    if total = 0 then
      match matchHMS cs with
      | some (h, m, sec) => (h : ℤ) * 3600 + (m : ℤ) * 60 + (sec : ℤ)
      | none => 0
    else (total : ℤ)

/-- Python `f"{n:02d}"`: zero-pad single digit nonnegative values to
width two. -/
def pad2 (n : ℤ) : String :=
  if 0 ≤ n ∧ n < 10 then "0" ++ toString n else toString n

/-- Model of `GCodeParser._format_time`: `HH:MM:SS` from seconds, with Python
floor division and modulo (`Int.fdiv`/`Int.fmod`). -/
def format_time (seconds : ℤ) : String :=
  let hours := seconds.fdiv 3600
  let minutes := (seconds.fmod 3600).fdiv 60
  let secs := seconds.fmod 60
  pad2 hours ++ ":" ++ pad2 minutes ++ ":" ++ pad2 secs

/-! ## Heap model of object identity

Python dataclasses are mutable objects handled by reference.  To settle
the aliasing claim about `get_state` this model makes identity
explicit: a heap of `PrinterState` objects addressed by index, and a
client that holds the reference to its live state object. -/

/-- A heap of `PrinterState` objects; a reference is an index. -/
structure Heap where
  objs : List PrinterState
deriving DecidableEq, Repr

/-- Dereference (reading a dataclass field goes through this). -/
def Heap.read (h : Heap) (r : ℕ) : PrinterState := h.objs.getD r initState

/-- Field mutation of the object behind a reference. -/
def Heap.write (h : Heap) (r : ℕ) (st : PrinterState) : Heap :=
  ⟨h.objs.set r st⟩

/-- A `PrinterClient` as the heap model sees it: it owns the reference
to its live `PrinterState` object (`self.state`). -/
structure ClientRef where
  stateRef : ℕ
deriving DecidableEq, Repr

/-- Model of `PrinterClient.get_state` under reference semantics: `return
self.state` hands back the reference to the live object itself — no
copy is made, no new object is allocated.  (`poll_status` likewise ends
in `return self.state`, and `_poll_loop` passes that same reference to
every status callback.) -/
def get_state_ref (c : ClientRef) (_h : Heap) : ℕ := c.stateRef

/-! ## Spec-side definitions used by the comparison theorems -/

/-- Thermal rule table exactly as the claim words it: PREHEATING if
both heaters have target > 30 and target − current > 10; else HEATING
if either heater has target > 30 and target − current > 3; else READY
if every heater with target > 30 has |target − current| ≤ 3 and at
least one heater has target > 30; else COOLING if either heater has
current > target + 3 and current > 40; else IDLE. -/
def claimThermal (nt ntg bt btg : ℚ) : PrinterStatus :=
  if (ntg > 30 ∧ ntg - nt > 10) ∧ (btg > 30 ∧ btg - bt > 10) then .preheating
  else if (ntg > 30 ∧ ntg - nt > 3) ∨ (btg > 30 ∧ btg - bt > 3) then .heating
  else if ((ntg > 30 → |ntg - nt| ≤ 3) ∧ (btg > 30 → |btg - bt| ≤ 3))
          ∧ (ntg > 30 ∨ btg > 30) then .ready
  else if (nt > ntg + 3 ∧ nt > 40) ∨ (bt > btg + 3 ∧ bt > 40) then .cooling
  else .idle

/-- The state invariant named by the spec: a disconnected client
reports `DISCONNECTED`, and progress lies in `[0, 100]`. -/
def StateInv (st : PrinterState) : Prop :=
  (st.connected = false → st.status = .disconnected) ∧ 0 ≤ st.progress ∧ st.progress ≤ 100

/-- The state invariant lifted to an operation outcome: it must hold
for the client a completed call returns (extracted by `proj`), and for
the shared state left frozen when the call deadlocks on the client's
own lock. -/
def ResultInv {α : Type} (proj : α → Client) : LockResult α → Prop
  | .done a => StateInv (proj a).state
  | .deadlock fc => StateInv fc.state

/-- A progress response is well-formed when any `byte current/total`
pattern it carries satisfies `0 ≤ current ≤ total` (what a real SD
progress report always satisfies). -/
def GoodProgressResp (response : String) : Prop :=
  ∀ cu tot : ℤ, byteFraction response = some (cu, tot) → 0 ≤ cu ∧ cu ≤ tot

/-- Sample prior state with distinctive field values, used by the
concrete counterexamples and witnesses. -/
def stPrior : PrinterState :=
  { connected := true, status := .idle, nozzle_temp := 11, nozzle_target := 12,
    bed_temp := 13, bed_target := 14, progress := 7 }

/-- Sample connected client used by concrete counterexamples and
witnesses. -/
def cSample : Client :=
  { sock := true, state := { initState with connected := true, status := .idle } }

/-- Sample poll responses in which only the `~M27` exchange fails. -/
def envM27err : PollEnv :=
  { r105 := some "T0:25/0 B:25/0 ok", r119 := some "CMD M119 ok", r27 := none }

/-- Sample poll responses in which the `~M105` exchange fails. -/
def envM105err : PollEnv :=
  { r105 := none, r119 := some "CMD M119 ok", r27 := none }

/-- Sample poll responses in which the `~M119` exchange fails. -/
def envM119err : PollEnv :=
  { r105 := some "T0:25/0 B:25/0 ok", r119 := none, r27 := none }

/-- Sample poll responses in which every exchange succeeds. -/
def envPollOk : PollEnv :=
  { r105 := some "T0:200/200 B:60/60 ok", r119 := some "CMD M119 ok",
    r27 := some "SD printing byte 50/100 ok" }

/-! ## Arithmetic helper lemmas -/

/-- Truncation toward zero of a quotient of a nonnegative integer by a
positive integer agrees with Euclidean (floor) division. -/
lemma pyTrunc_div_eq (a b : ℤ) (ha : 0 ≤ a) (hb : 0 < b) :
    pyTrunc ((a : ℚ) / (b : ℚ)) = a / b := by
  have hbq : (0 : ℚ) < (b : ℚ) := by exact_mod_cast hb
  have hq : (0 : ℚ) ≤ (a : ℚ) / (b : ℚ) :=
    div_nonneg (by exact_mod_cast ha) hbq.le
  have hnum : 0 ≤ ((a : ℚ) / (b : ℚ)).num := Rat.num_nonneg.mpr hq
  have h1 : pyTrunc ((a : ℚ) / (b : ℚ)) = ⌊(a : ℚ) / (b : ℚ)⌋ := by
    unfold pyTrunc
    rw [Int.tdiv_eq_ediv hnum (Int.ofNat_nonneg _), Rat.floor_def]
  have hbn : ((b.toNat : ℕ) : ℚ) = (b : ℚ) := by
    exact_mod_cast Int.toNat_of_nonneg hb.le
  rw [h1, ← hbn, Rat.floor_intCast_div_natCast, Int.toNat_of_nonneg hb.le]

/-- The progress computation `int((current / total) * 100)` equals the
integer division `current * 100 / total` for nonnegative `current`. -/
lemma pyTrunc_progress (cu tot : ℤ) (hcu : 0 ≤ cu) (ht : 0 < tot) :
    pyTrunc ((cu : ℚ) / (tot : ℚ) * 100) = cu * 100 / tot := by
  have h : (cu : ℚ) / (tot : ℚ) * 100 = ((cu * 100 : ℤ) : ℚ) / ((tot : ℤ) : ℚ) := by
    push_cast
    ring
  rw [h, pyTrunc_div_eq _ _ (by omega) ht]

/-- Bounds of the stored progress value under a well-formed byte
fraction. -/
lemma pyTrunc_progress_bounds (cu tot : ℤ) (hcu : 0 ≤ cu) (hle : cu ≤ tot) (ht : 0 < tot) :
    0 ≤ pyTrunc ((cu : ℚ) / (tot : ℚ) * 100) ∧
      pyTrunc ((cu : ℚ) / (tot : ℚ) * 100) ≤ 100 := by
  rw [pyTrunc_progress cu tot hcu ht]
  refine ⟨Int.ediv_nonneg (by omega) (by omega), ?_⟩
  calc cu * 100 / tot ≤ tot * 100 / tot := Int.ediv_le_ediv ht (by omega)
    _ = 100 := by
        rw [mul_comm]
        exact Int.mul_ediv_cancel 100 (by omega)

/-! ## Frame lemmas for the parsers -/

/-- The nozzle step touches only the nozzle temperature fields. -/
lemma parseT0_frame (response : String) (st : PrinterState) :
    (parseT0 response st).1.connected = st.connected ∧
      (parseT0 response st).1.status = st.status ∧
      (parseT0 response st).1.progress = st.progress ∧
      (parseT0 response st).1.bed_temp = st.bed_temp ∧
      (parseT0 response st).1.bed_target = st.bed_target := by
  unfold parseT0
  repeat' split
  all_goals simp

/-- The bed step touches only the bed temperature fields. -/
lemma parseB_frame (response : String) (st : PrinterState) :
    (parseB response st).1.connected = st.connected ∧
      (parseB response st).1.status = st.status ∧
      (parseB response st).1.progress = st.progress ∧
      (parseB response st).1.nozzle_temp = st.nozzle_temp ∧
      (parseB response st).1.nozzle_target = st.nozzle_target := by
  unfold parseB
  repeat' split
  all_goals simp

/-- Temperature parsing never changes connection, status or progress. -/
lemma parse_temperatures_frame (response : String) (st : PrinterState) :
    (parse_temperatures response st).connected = st.connected ∧
      (parse_temperatures response st).status = st.status ∧
      (parse_temperatures response st).progress = st.progress := by
  obtain ⟨hT1, hT2, hT3, -, -⟩ := parseT0_frame response st
  obtain ⟨hB1, hB2, hB3, -, -⟩ := parseB_frame response (parseT0 response st).1
  unfold parse_temperatures
  split
  · exact ⟨hT1, hT2, hT3⟩
  · exact ⟨hB1.trans hT1, hB2.trans hT2, hB3.trans hT3⟩

/-- Status parsing never changes connection or progress. -/
lemma parse_status_frame (response : String) (st : PrinterState) :
    (parse_status response st).connected = st.connected ∧
      (parse_status response st).progress = st.progress := by
  cases h1 : pyIn "printing" (pyLower response) <;>
  cases h2 : pyIn "paused" (pyLower response) <;>
  cases h3 : pyIn "complete" (pyLower response) <;>
  cases h4 : pyIn "finished" (pyLower response) <;>
  cases h5 : pyIn "error" (pyLower response) <;>
  cases h6 : st.connected <;>
  simp [parse_status, h1, h2, h3, h4, h5, h6]

/-- Progress parsing never changes connection or status. -/
lemma parse_progress_frame (response : String) (st : PrinterState) :
    (parse_progress response st).connected = st.connected ∧
      (parse_progress response st).status = st.status := by
  unfold parse_progress
  repeat' split
  all_goals simp

/-- An empty response carries no byte fraction. -/
lemma goodResp_empty : GoodProgressResp "" := by
  intro cu tot h
  rw [show byteFraction "" = none from by with_unfolding_all rfl] at h
  exact Option.noConfusion h

/-- Progress parsing keeps progress within bounds when every byte
fraction of the response is well-formed. -/
lemma parse_progress_bounds (response : String) (st : PrinterState)
    (h0 : 0 ≤ st.progress) (h1 : st.progress ≤ 100)
    (hg : GoodProgressResp response) :
    0 ≤ (parse_progress response st).progress ∧
      (parse_progress response st).progress ≤ 100 := by
  unfold parse_progress
  split
  · split
    · split
      · exact ⟨h0, h1⟩
      · rename_i current total heq
        split
        · rename_i ht
          obtain ⟨hcu, hle⟩ := hg current total heq
          simpa using pyTrunc_progress_bounds current total hcu hle ht
        · exact ⟨h0, h1⟩
    · exact ⟨h0, h1⟩
  · split
    · split
      · simp
      · exact ⟨h0, h1⟩
    · exact ⟨h0, h1⟩

/-! ## Connection lifecycle lemmas -/

/-- Behaviour of `connect`: an acknowledged handshake completes with a
connected, `IDLE` client (progress untouched); anything else deadlocks
inside `_close_socket` with the socket created but the shared state
frozen as it was. -/
lemma connect_spec (c : Client) (hs : Option String) :
    (handshake_ok hs = true →
      connect c hs
        = .done
            ({ sock := true,
               state := { c.state with connected := true, status := .idle } },
             true)) ∧
      (handshake_ok hs = false →
        connect c hs = .deadlock { c with sock := true }) := by
  have hsend : send_command { c with sock := true } hs = hs := rfl
  unfold connect close_socket
  rw [hsend]
  cases h : handshake_ok hs <;> simp [h]

/-- The error handler always deadlocks at its `_close_socket` call,
leaving the shared state exactly as it was at entry. -/
lemma handle_connection_error_eq (c : Client) :
    handle_connection_error c = .deadlock c := rfl

/-- Connecting preserves the state invariant in both outcomes. -/
lemma connect_inv (c : Client) (hs : Option String) (hinv : StateInv c.state) :
    ResultInv Prod.fst (connect c hs) := by
  obtain ⟨hok, hfail⟩ := connect_spec c hs
  cases h : handshake_ok hs
  · rw [hfail h]
    exact hinv
  · rw [hok h]
    exact ⟨fun hfalse => Bool.noConfusion hfalse, hinv.2.1, hinv.2.2⟩

/-- The deadlocked error handler leaves the invariant holding on the
frozen state. -/
lemma handle_connection_error_inv (c : Client) (hinv : StateInv c.state) :
    ResultInv id (handle_connection_error c) := by
  rw [handle_connection_error_eq]
  exact hinv

/-- The progress exchange of a poll preserves the state invariant for a
connected client. -/
lemma poll_progress_step_inv (c2 : Client) (env : PollEnv)
    (hconn : c2.state.connected = true)
    (hp0 : 0 ≤ c2.state.progress) (hp1 : c2.state.progress ≤ 100)
    (hg : GoodProgressResp (env.r27.getD "")) :
    ResultInv Prod.fst (poll_progress_step c2 env) := by
  unfold poll_progress_step
  split
  · have hg2 : GoodProgressResp ((send_command c2 env.r27).getD "") := by
      unfold send_command
      split
      · exact hg
      · exact goodResp_empty
    obtain ⟨hcf, -⟩ := parse_progress_frame ((send_command c2 env.r27).getD "") c2.state
    obtain ⟨hb0, hb1⟩ :=
      parse_progress_bounds ((send_command c2 env.r27).getD "") c2.state hp0 hp1 hg2
    refine ⟨fun hfalse => ?_, hb0, hb1⟩
    rw [hcf, hconn] at hfalse
    exact Bool.noConfusion hfalse
  · refine ⟨fun hfalse => ?_, hp0, hp1⟩
    rw [hconn] at hfalse
    exact Bool.noConfusion hfalse

/-- The status exchange of a poll preserves the state invariant for a
connected client, in both outcomes. -/
lemma poll_status_step_inv (c1 : Client) (env : PollEnv)
    (hconn : c1.state.connected = true)
    (hp0 : 0 ≤ c1.state.progress) (hp1 : c1.state.progress ≤ 100)
    (hg : GoodProgressResp (env.r27.getD "")) :
    ResultInv Prod.fst (poll_status_step c1 env) := by
  unfold poll_status_step
  split
  · obtain ⟨hcf, hpf⟩ :=
      parse_status_frame ((send_command c1 env.r119).getD "") c1.state
    exact poll_progress_step_inv _ env (hcf.trans hconn)
      (by rw [hpf]; exact hp0) (by rw [hpf]; exact hp1) hg
  · rw [handle_connection_error_eq]
    refine ⟨fun hfalse => ?_, hp0, hp1⟩
    rw [hconn] at hfalse
    exact Bool.noConfusion hfalse

/-- One full poll cycle preserves the state invariant, in both
outcomes. -/
lemma poll_status_inv (c : Client) (env : PollEnv)
    (hinv : StateInv c.state) (hg : GoodProgressResp (env.r27.getD "")) :
    ResultInv Prod.fst (poll_status c env) := by
  obtain ⟨hdis, hp0, hp1⟩ := hinv
  unfold poll_status
  split
  · exact ⟨hdis, hp0, hp1⟩
  · rename_i hcf
    have hconn : c.state.connected = true := by
      cases hb : c.state.connected
      · exact absurd hb hcf
      · rfl
    split
    · obtain ⟨hcf2, -, hpf⟩ :=
        parse_temperatures_frame ((send_command c env.r105).getD "") c.state
      exact poll_status_step_inv _ env (hcf2.trans hconn)
        (by rw [hpf]; exact hp0) (by rw [hpf]; exact hp1) hg
    · rw [handle_connection_error_eq]
      refine ⟨fun hfalse => ?_, hp0, hp1⟩
      rw [hconn] at hfalse
      exact Bool.noConfusion hfalse


/-! ## Claim theorems -/

/-- C1, counterexample: at nozzle 205/200 and bed 61/60 (progress 0,
so outside the open interval) the inference engine returns COOLING,
not the READY the claim names: the nozzle is 5°C above target, outside
the ±3°C band, and above 40°C. -/
theorem C1_ready_example_counterexample :
    determine_thermal_status
        { initState with nozzle_temp := 205, nozzle_target := 200,
                         bed_temp := 61, bed_target := 60 }
      = PrinterStatus.cooling ∧ PrinterStatus.cooling ≠ PrinterStatus.ready :=
  ⟨by with_unfolding_all decide, by decide⟩

/-- C1 (amended): whenever progress is not strictly between 0 and 100,
the inference engine returns exactly the first matching rule of the
claim's five-rule table (PREHEATING, HEATING, READY, COOLING, IDLE,
with the stated thresholds); the concrete example is amended, since
nozzle 205/200 with bed 61/60 falls under the COOLING rule, not READY. -/
theorem C1_thermal_rule_table (st : PrinterState)
    (h : ¬(0 < st.progress ∧ st.progress < 100)) :
    determine_thermal_status st
      = claimThermal st.nozzle_temp st.nozzle_target st.bed_temp st.bed_target := by
  unfold determine_thermal_status claimThermal
  rw [if_neg h]
  exact if_congr Iff.rfl rfl (if_congr Iff.rfl rfl (if_congr (by tauto) rfl rfl))

/-- Witness for C1 at a concrete input (progress 0). -/
theorem C1_thermal_rule_table_witness :
    determine_thermal_status
        { initState with nozzle_temp := 202, nozzle_target := 200,
                         bed_temp := 61, bed_target := 60 }
      = claimThermal
          ({ initState with nozzle_temp := 202, nozzle_target := 200,
                            bed_temp := 61, bed_target := 60 } : PrinterState).nozzle_temp
          ({ initState with nozzle_temp := 202, nozzle_target := 200,
                            bed_temp := 61, bed_target := 60 } : PrinterState).nozzle_target
          ({ initState with nozzle_temp := 202, nozzle_target := 200,
                            bed_temp := 61, bed_target := 60 } : PrinterState).bed_temp
          ({ initState with nozzle_temp := 202, nozzle_target := 200,
                            bed_temp := 61, bed_target := 60 } : PrinterState).bed_target :=
  C1_thermal_rule_table
    { initState with nozzle_temp := 202, nozzle_target := 200,
                     bed_temp := 61, bed_target := 60 }
    (by decide)

/-- C2, counterexample: with progress 45 (strictly between 0 and 100)
and a response carrying the explicit keyword `paused`, the parsed
status is PAUSED, not PRINTING — the keyword checks run before the
progress rule, so progress does not take precedence over explicit
device-reported keywords. -/
theorem C2_keyword_overrides_progress :
    ({ stPrior with progress := 45 } : PrinterState).connected = true ∧
      (0 : ℤ) < 45 ∧ (45 : ℤ) < 100 ∧
      (parse_status "MachineStatus: paused ok" { stPrior with progress := 45 }).status
        = PrinterStatus.paused ∧
      PrinterStatus.paused ≠ PrinterStatus.printing :=
  ⟨rfl, by decide, by decide, by with_unfolding_all decide, by decide⟩

/-- C2 (amended): for a status-parse step of a connected client whose
response contains none of the explicit keywords (printing, paused,
complete, finished, error), progress strictly between 0 and 100 forces
PRINTING — the progress rule precedes all thermal rules, but explicit
keywords precede the progress rule. -/
theorem C2_progress_precedence_no_keyword (response : String) (st : PrinterState)
    (hconn : st.connected = true)
    (h1 : pyIn "printing" (pyLower response) = false)
    (h2 : pyIn "paused" (pyLower response) = false)
    (h3 : pyIn "complete" (pyLower response) = false)
    (h4 : pyIn "finished" (pyLower response) = false)
    (h5 : pyIn "error" (pyLower response) = false)
    (hp0 : 0 < st.progress) (hp1 : st.progress < 100) :
    (parse_status response st).status = PrinterStatus.printing := by
  unfold parse_status
  simp [h1, h2, h3, h4, h5, hconn]
  unfold determine_thermal_status
  rw [if_pos (And.intro hp0 hp1)]

/-- Witness for C2 at a keyword-free response and progress 45. -/
theorem C2_progress_precedence_no_keyword_witness :
    (parse_status "CMD M119 ok" { stPrior with progress := 45 }).status
      = PrinterStatus.printing :=
  C2_progress_precedence_no_keyword "CMD M119 ok" { stPrior with progress := 45 }
    rfl (by with_unfolding_all rfl) (by with_unfolding_all rfl)
    (by with_unfolding_all rfl) (by with_unfolding_all rfl)
    (by with_unfolding_all rfl) (by decide) (by decide)

/-- C3, counterexample: on `T0:200/xyz B:60/60 ok` the parser
overwrites `nozzle_temp` (to 200) but aborts on the malformed nozzle
target, leaving `nozzle_target` stale — a partial overwrite of a
current/target pair — and the abort also prevents the well-formed `B:`
pair from being applied (bed fields keep 13/14 instead of 60/60). -/
theorem C3_partial_overwrite_counterexample :
    parse_temperatures "T0:200/xyz B:60/60 ok" stPrior = { stPrior with nozzle_temp := 200 } ∧
      stPrior.nozzle_temp = 11 ∧ stPrior.nozzle_target = 12 ∧
      stPrior.bed_temp = 13 ∧ stPrior.bed_target = 14 :=
  ⟨by with_unfolding_all decide, by with_unfolding_all decide, by with_unfolding_all decide,
    by with_unfolding_all decide, by with_unfolding_all decide⟩

/-- C3 (amended): when every fragment parses — the first
whitespace-token after `T0:` splits on `/` into exactly two numeric
fields, and likewise for `B:` — all four temperature fields are
overwritten with the parsed values.  (On a malformed fragment the
parser instead stops at the first failure: fields already assigned
keep their new values, all later fields keep their prior values, as
the counterexample shows.) -/
theorem C3_full_parse_sets_all_fields (response : String) (st : PrinterState)
    (fT fB a b c d : String) (x y z w : ℚ)
    (hT : pyIn "T0:" response = true)
    (hfT : (pySplit ((pySplitOn "T0:" response).getD 1 "")).head? = some fT)
    (hTs : pyIn "/" fT = true)
    (hTsplit : pySplitOn "/" fT = [a, b])
    (ha : pyFloat a = some x) (hb : pyFloat b = some y)
    (hB : pyIn "B:" response = true)
    (hfB : (pySplit ((pySplitOn "B:" response).getD 1 "")).head? = some fB)
    (hBs : pyIn "/" fB = true)
    (hBsplit : pySplitOn "/" fB = [c, d])
    (hc : pyFloat c = some z) (hd : pyFloat d = some w) :
    parse_temperatures response st =
      { st with nozzle_temp := x, nozzle_target := y, bed_temp := z, bed_target := w } := by
  unfold parse_temperatures parseT0 parseB
  simp only [List.getD_eq_getElem?_getD] at hfT hfB
  simp [hT, hfT, hTs, hTsplit, ha, hb, hB, hfB, hBs, hBsplit, hc, hd]

/-- Witness for C3 on the canonical `T0:200/200 B:60/60 ok` response. -/
theorem C3_full_parse_sets_all_fields_witness :
    parse_temperatures "T0:200/200 B:60/60 ok" stPrior =
      { stPrior with nozzle_temp := 200, nozzle_target := 200,
                     bed_temp := 60, bed_target := 60 } :=
  C3_full_parse_sets_all_fields "T0:200/200 B:60/60 ok" stPrior
    "200/200" "60/60" "200" "200" "60" "60" 200 200 60 60
    (by with_unfolding_all rfl) (by with_unfolding_all rfl) (by with_unfolding_all rfl)
    (by with_unfolding_all rfl) (by with_unfolding_all rfl) (by with_unfolding_all rfl)
    (by with_unfolding_all rfl) (by with_unfolding_all rfl) (by with_unfolding_all rfl)
    (by with_unfolding_all rfl) (by with_unfolding_all rfl) (by with_unfolding_all rfl)

/-- C4, counterexample: the progress parser stores the unclamped value
`int(current / total * 100)`; on `byte 200/100` it stores 200,
violating the claimed bound `progress ≤ 100`. -/
theorem C4_progress_unclamped_counterexample :
    (parse_progress "SD printing byte 200/100 ok" stPrior).progress = 200 ∧
      ¬(parse_progress "SD printing byte 200/100 ok" stPrior).progress ≤ 100 :=
  ⟨by with_unfolding_all rfl, by with_unfolding_all decide⟩

/-- C4 (amended): starting from any state satisfying the invariant
`(connected = false → status = DISCONNECTED) ∧ 0 ≤ progress ≤ 100`,
every operation of the client preserves it — in every outcome: for the
state a completed call returns, and for the shared state left frozen
when a call deadlocks on the client's own non-reentrant lock
(`connect`'s failure path and the mid-poll error-handler path) —
provided every `byte current/total` pattern the progress poll consumes
satisfies `0 ≤ current ≤ total`; the fresh client satisfies the
invariant.  Without that restriction on responses the bound fails, as
the counterexample shows (the code never clamps progress). -/
theorem C4_operations_preserve_invariant (c : Client) (env : PollEnv)
    (hs r rsel rstart : Option String) (t : ℤ) (b : Bool)
    (hinv : StateInv c.state) (hg : GoodProgressResp (env.r27.getD "")) :
    StateInv initClient.state ∧
      ResultInv Prod.fst (connect c hs) ∧
      ResultInv id (disconnect c) ∧
      ResultInv Prod.fst (poll_status c env) ∧
      StateInv (emergency_stop c r).1.state ∧
      StateInv (toggle_led c b r).1.state ∧
      StateInv (pause_print c r).1.state ∧
      StateInv (resume_print c r).1.state ∧
      StateInv (set_nozzle_temp c t r).1.state ∧
      StateInv (set_bed_temp c t r).1.state ∧
      StateInv (fan_on c r).1.state ∧
      StateInv (fan_off c r).1.state ∧
      StateInv (disable_motors c r).1.state ∧
      StateInv (home_axes c r).1.state ∧
      StateInv (list_files c r).state ∧
      StateInv (start_print c rsel rstart).1.state ∧
      StateInv (delete_file c r).1.state ∧
      StateInv (upload_file c rsel rstart).1.state := by
  obtain ⟨hdis, hp0, hp1⟩ := hinv
  refine ⟨⟨fun _ => rfl, by decide, by decide⟩,
    connect_inv c hs ⟨hdis, hp0, hp1⟩,
    ⟨fun _ => rfl, hp0, hp1⟩,
    poll_status_inv c env ⟨hdis, hp0, hp1⟩ hg,
    ⟨hdis, hp0, hp1⟩, ?_, ⟨hdis, hp0, hp1⟩, ⟨hdis, hp0, hp1⟩, ?_, ?_,
    ⟨hdis, hp0, hp1⟩, ⟨hdis, hp0, hp1⟩, ⟨hdis, hp0, hp1⟩, ⟨hdis, hp0, hp1⟩,
    ⟨hdis, hp0, hp1⟩, ?_, ⟨hdis, hp0, hp1⟩, ?_⟩
  · unfold toggle_led
    split_ifs <;> exact ⟨hdis, hp0, hp1⟩
  · unfold set_nozzle_temp
    split_ifs <;> exact ⟨hdis, hp0, hp1⟩
  · unfold set_bed_temp
    split_ifs <;> exact ⟨hdis, hp0, hp1⟩
  · unfold start_print
    split_ifs <;> exact ⟨hdis, hp0, hp1⟩
  · unfold upload_file
    split_ifs <;> exact ⟨hdis, hp0, hp1⟩

/-- Witness for C4: one full successful poll cycle from a connected
sample client, with a well-formed `byte 50/100` progress response. -/
theorem C4_operations_preserve_invariant_witness :
    ResultInv Prod.fst (poll_status cSample envPollOk) :=
  (C4_operations_preserve_invariant cSample envPollOk none none none none 0 true
    ⟨fun hfalse => Bool.noConfusion hfalse, by decide, by decide⟩
    (by
      intro cu tot h
      rw [show byteFraction (envPollOk.r27.getD "") = some (50, 100) from by
        with_unfolding_all rfl] at h
      simp at h
      omega)).2.2.2.1

/-- C5: the claim states the intended design — `_handle_connection_error`'s
docstring promises automatic reconnection and its body is close, delay,
one `connect()` — but the code deadlocks instead of performing it:
`poll_status` still holds the client's non-reentrant `threading.Lock`
(taken at line 255) when a falsy `~M105`/`~M119` response invokes the
handler, whose first step `_close_socket` blocks forever re-acquiring
that same lock (line 127).  So neither the socket close, nor the delay,
nor any reconnect attempt happens, and neither claimed post-state is
reached: the polling thread freezes with the client still connected and
the socket still open (after a `~M119` failure, with the freshly parsed
temperatures visible).  A falsy `~M27` response, meanwhile, triggers no
error handling at all: that poll completes with zero reconnect
attempts. -/
theorem C5_reconnect_path_deadlocks :
    handle_connection_error cSample = LockResult.deadlock cSample ∧
      poll_status cSample envM105err = LockResult.deadlock cSample ∧
      cSample.state.connected = true ∧ cSample.sock = true ∧
      poll_status cSample envM119err
        = LockResult.deadlock
            { cSample with
              state := { cSample.state with
                         nozzle_temp := 25, nozzle_target := 0,
                         bed_temp := 25, bed_target := 0 } } ∧
      poll_status cSample envM27err
        = LockResult.done
            ({ cSample with
               state := { cSample.state with
                          nozzle_temp := 25, nozzle_target := 0,
                          bed_temp := 25, bed_target := 0 } },
             0) :=
  ⟨rfl, by with_unfolding_all decide, rfl, rfl,
    by with_unfolding_all decide, by with_unfolding_all decide⟩

/-- C6, counterexample: on `byte 2/3` the code stores
`int(2 / 3 * 100) = 66`, not the claimed `round(2 / 3 * 100) = 67`. -/
theorem C6_truncation_counterexample :
    (parse_progress "SD printing byte 2/3 ok" stPrior).progress = 66 ∧ (66 : ℤ) ≠ 67 :=
  ⟨by with_unfolding_all rfl, by decide⟩

/-- C6 (amended): for an SD-progress response whose `byte` pattern
parses to `current/total` with `0 ≤ current` and `0 < total`, the
stored progress is the truncation toward zero of
`current / total * 100` — equal to the integer floor division
`current * 100 / total`, not the nearest integer (2/3 yields 66). -/
theorem C6_progress_integer_division (response : String) (st : PrinterState)
    (cu tot : ℤ)
    (hsd : pyIn "SD printing byte" response = true)
    (hby : pyIn "byte" response = true)
    (hbf : byteFraction response = some (cu, tot))
    (hcu : 0 ≤ cu) (ht : 0 < tot) :
    (parse_progress response st).progress = cu * 100 / tot := by
  unfold parse_progress
  simp only [hsd, hby, Bool.true_or, if_true, hbf]
  rw [if_pos ht]
  simpa using pyTrunc_progress cu tot hcu ht

/-- Witness for C6 on `byte 1/2`. -/
theorem C6_progress_integer_division_witness :
    (parse_progress "SD printing byte 1/2 ok" stPrior).progress = 1 * 100 / 2 :=
  C6_progress_integer_division "SD printing byte 1/2 ok" stPrior 1 2
    (by with_unfolding_all rfl) (by with_unfolding_all rfl)
    (by with_unfolding_all rfl) (by decide) (by decide)

/-- C7: the claim matches the intent documented in the source comments
(`"Not SD printing" - not printing from SD`, `reset progress if we're
not in a print state`), but the code reaches the reset branch only for
responses that avoid the literal substring `SD printing` — which
`Not SD printing`, the device's actual reply, contains.  So the
canonical not-printing response leaves progress unchanged even in
IDLE; the reset branch fires only on texts like `not printing`. -/
theorem C7_not_sd_printing_shadowed :
    pyIn "SD printing" "Not SD printing" = true ∧
      ({ stPrior with progress := 42 } : PrinterState).status = PrinterStatus.idle ∧
      (parse_progress "Not SD printing" { stPrior with progress := 42 }).progress = 42 ∧
      (42 : ℤ) ≠ 0 ∧
      (parse_progress "not printing" { stPrior with progress := 42 }).progress = 0 :=
  ⟨by with_unfolding_all rfl, rfl, by with_unfolding_all rfl, by decide,
    by with_unfolding_all rfl⟩

/-- C8: the time formatter and parser round-trip on the spec's pair —
5400 seconds formats as `01:30:00`, and `01:30:00` parses back to
5400 seconds. -/
theorem C8_time_roundtrip :
    format_time 5400 = "01:30:00" ∧ parse_time_string "01:30:00" = 5400 :=
  ⟨rfl, rfl⟩

/-- C9: `get_state` returns the reference to the live `PrinterState`
object (`return self.state`), not a copy — mutating the live state
after the call changes the value observed through the returned
reference, so the returned object aliases the live mutable state,
contrary to the claim.  (`poll_status` returns, and `_poll_loop` hands
each callback, that same reference.) -/
theorem C9_get_state_aliases_live_state :
    Heap.read
        (Heap.write (Heap.mk [stPrior]) (ClientRef.mk 0).stateRef
          { stPrior with progress := 50 })
        (get_state_ref (ClientRef.mk 0) (Heap.mk [stPrior]))
      ≠ Heap.read (Heap.mk [stPrior]) (get_state_ref (ClientRef.mk 0) (Heap.mk [stPrior])) := by
  with_unfolding_all decide

/-- C10: both temperature setters clamp the request — to `[0, 300]`
for the nozzle and `[0, 120]` for the bed — and on an acknowledged
exchange store exactly the clamped value as the new target while
returning true; on a failed exchange the target is unchanged and false
is returned. -/
theorem C10_set_temp_clamped (c : Client) (t : ℤ) (r : Option String) :
    (set_nozzle_temp c t r).1.state.nozzle_target =
        (if ackOf (send_command c r) then ((max 0 (min 300 t) : ℤ) : ℚ)
         else c.state.nozzle_target) ∧
      (set_nozzle_temp c t r).2 = ackOf (send_command c r) ∧
      (set_bed_temp c t r).1.state.bed_target =
        (if ackOf (send_command c r) then ((max 0 (min 120 t) : ℤ) : ℚ)
         else c.state.bed_target) ∧
      (set_bed_temp c t r).2 = ackOf (send_command c r) := by
  unfold set_nozzle_temp set_bed_temp
  split_ifs with h
  all_goals simp_all

end FlashForge
